import Mathlib

/-!
Shallow embedding of `src/devices/controlBoard_nws_ros2/ControlBoard_nws_ros2.cpp`
(yarp-devices-ros2).  The wrapper periodically samples joint state from an
attached motion-control device and republishes it as a `JointState` message.

Modelling conventions:
* C++ `double` values are modelled as real numbers (`ℝ`) for joint data and as
  rationals (`ℚ`) for configuration values and timestamps, where exact
  evaluation is needed.
* The external device driver (a `PolyDriver` plus the capability interfaces
  `IPositionControl`, `IEncodersTimed`, `ITorqueControl`, `IAxisInfo` obtained
  through `view`) is modelled as a `Device` record of query functions; a
  capability being "viewable" is a Boolean field, fallible reads return
  `Option`.
* Mutation of the `ControlBoard_nws_ros2` object is explicit state passing on
  `ControllerState`; each member function returns its C++ return value paired
  with the updated state.
* The ROS2 publisher and the periodic thread are external collaborators: a
  publish is modelled by `run` returning the message it publishes, and
  starting/stopping the thread by the `running` flag (thread start is assumed
  to succeed).
-/

/-- Joint type classification returned by `IAxisInfo::getJointType`
(`JointTypeEnum` vocab values; the code only distinguishes
`VOCAB_JOINTTYPE_REVOLUTE` from everything else). -/
inductive JointTypeEnum where
  | revolute
  | prismatic
  | fixed
  | unknown
deriving DecidableEq, Repr

/-- The attached device as seen through the capability interfaces the wrapper
queries.  `hasX` says whether `view` finds interface `X`; the read functions
return `none` when the corresponding C++ call returns `false`. -/
structure Device where
  /-- whether `view(iPositionControl)` yields a non-null interface -/
  hasPositionControl : Bool
  /-- whether `view(iEncodersTimed)` yields a non-null interface -/
  hasEncodersTimed : Bool
  /-- whether `view(iTorqueControl)` yields a non-null interface -/
  hasTorqueControl : Bool
  /-- whether `view(iAxisInfo)` yields a non-null interface -/
  hasAxisInfo : Bool
  /-- `PolyDriver::isValid()` -/
  valid : Bool
  /-- `IPositionControl::getAxes` (C++ `int` out-parameter; `none` = call failed) -/
  getAxes : Option Int
  /-- `IAxisInfo::getAxisName` for a given axis (`none` = call returned false) -/
  axisName : Nat → Option String
  /-- `IAxisInfo::getJointType` for a given axis (return flag ignored by the code) -/
  jointType : Nat → JointTypeEnum
  /-- `IEncodersTimed::getEncodersTimed`: bulk positions plus per-joint timestamps -/
  getEncodersTimed : Option (List ℝ × List ℚ)
  /-- `IEncodersTimed::getEncoderSpeeds`: bulk velocities -/
  getEncoderSpeeds : Option (List ℝ)
  /-- `ITorqueControl::getTorques`: bulk efforts -/
  getTorques : Option (List ℝ)

/-- A configuration value as stored in a `yarp::os::Property`
(only the types the code inspects). -/
inductive Value where
  | vFloat64 : ℚ → Value
  | vInt32 : Int → Value
  | vString : String → Value
deriving DecidableEq, Repr

/-- `yarp::os::Value::isFloat64`. -/
def Value.isFloat64 : Value → Bool
  | .vFloat64 _ => true
  | _ => false

/-- `yarp::os::Value::asFloat64` (the code only calls it after `isFloat64`). -/
def Value.asFloat64 : Value → ℚ
  | .vFloat64 q => q
  | _ => 0

/-- `yarp::os::Value::asString`. -/
def Value.asString : Value → String
  | .vString s => s
  | _ => ""

/-- A `Searchable`/`Property` configuration: keyed values. -/
abbrev Config := List (String × Value)

/-- `Property::find`: the value stored under a key, if any. -/
def Config.find (c : Config) (k : String) : Option Value :=
  (List.find? (fun p => p.1 == k) c).map (fun p => p.2)

/-- `Property::check`: whether a key is present. -/
def Config.check (c : Config) (k : String) : Bool :=
  (Config.find c k).isSome

/-- The `sensor_msgs::msg::JointState` message assembled and published each
cycle (`ros_struct` at publish time).  `stamp` is `header.stamp`. -/
structure JointStateMsg where
  name : List String
  position : List ℝ
  velocity : List ℝ
  effort : List ℝ
  stamp : ℚ

/-- The mutable state of a `ControlBoard_nws_ros2` object: its data members,
with the capability interface pointers reduced to null/non-null flags and the
periodic thread reduced to its `running` flag. -/
structure ControllerState where
  period : ℚ
  nodeName : String
  topicName : String
  /-- the bound device (`subdevice_ptr`; `none` = null pointer) -/
  subdevice_ptr : Option Device
  subdevice_owned : Bool
  subdevice_joints : Nat
  subdevice_ready : Bool
  /-- per-joint timestamp buffer `times` -/
  times : List ℚ
  /-- `jointNames`, captured by `updateAxisName` -/
  jointNames : List String
  /-- `ros_struct.name` -/
  ros_name : List String
  /-- `ros_struct.position` -/
  ros_position : List ℝ
  /-- `ros_struct.velocity` -/
  ros_velocity : List ℝ
  /-- `ros_struct.effort` -/
  ros_effort : List ℝ
  /-- non-null `iPositionControl` interface pointer -/
  iPositionControl : Bool
  /-- non-null `iEncodersTimed` interface pointer -/
  iEncodersTimed : Bool
  /-- non-null `iTorqueControl` interface pointer -/
  iTorqueControl : Bool
  /-- non-null `iAxisInfo` interface pointer -/
  iAxisInfo : Bool
  /-- the port envelope `yarp::os::Stamp time` (its time field) -/
  envelopeTime : ℚ
  /-- whether `m_publisher` has been created by `open` -/
  publisherCreated : Bool
  /-- whether the periodic thread is running (`isRunning`) -/
  running : Bool
  /-- the `counter` member incremented each cycle -/
  counter : Nat

/-- Modelled from the spec: the class header declaring `default_period` is not
in `src/`; the spec fixes the default thread period at 0.02 seconds. -/
def default_period : ℚ := 1 / 50

/-- Modelled from the spec: the class header with the members' in-class
initializers is not in `src/`; the spec's Closed state has no binding, no
capability references, ownership flag cleared, joint count zero, and the
default period. -/
def initialState : ControllerState where
  period := default_period
  nodeName := ""
  topicName := ""
  subdevice_ptr := none
  subdevice_owned := false
  subdevice_joints := 0
  subdevice_ready := false
  times := []
  jointNames := []
  ros_name := []
  ros_position := []
  ros_velocity := []
  ros_effort := []
  iPositionControl := false
  iEncodersTimed := false
  iTorqueControl := false
  iAxisInfo := false
  envelopeTime := 0
  publisherCreated := false
  running := false
  counter := 0

/-- `std::vector::resize` semantics: keep the first `n` elements, pad with the
default value when growing. -/
def resizeList {α : Type} (dflt : α) (l : List α) (n : Nat) : List α :=
  l.take n ++ List.replicate (n - l.length) dflt

/-- The loop body of `updateAxisName`: query `getAxisName` for each index in
order, failing as soon as one query fails (the partial vector `tmpVect` is a
local and is dropped on failure). -/
def getNames (d : Device) : List Nat → Option (List String)
  | [] => some []
  | i :: rest =>
    match d.axisName i with
    | none => none
    | some nm =>
      match getNames d rest with
      | none => none
      | some nms => some (nm :: nms)

/-- `ControlBoard_nws_ros2::updateAxisName` (lines 317-340): on success the
collected names replace `jointNames`; on failure the state is untouched. -/
def updateAxisName (d : Device) (s : ControllerState) : Bool × ControllerState :=
  match getNames d (List.range s.subdevice_joints) with
  | none => (false, s)
  | some v => (true, { s with jointNames := v })

/-- `ControlBoard_nws_ros2::setDevice` (lines 172-225): store the pointer and
ownership, view the four capability interfaces (position, timed encoders and
axis info are mandatory, torque is optional), query the axis count, resize the
buffers and capture the joint names. -/
def setDevice (d : Device) (owned : Bool) (s : ControllerState) :
    Bool × ControllerState :=
  let s0 := { s with subdevice_ptr := some d, subdevice_owned := owned }
  let s1 := { s0 with iPositionControl := d.hasPositionControl }
  if !d.hasPositionControl then (false, s1)
  else
    let s2 := { s1 with iEncodersTimed := d.hasEncodersTimed }
    if !d.hasEncodersTimed then (false, s2)
    else
      let s3 := { s2 with iTorqueControl := d.hasTorqueControl }
      let s4 := { s3 with iAxisInfo := d.hasAxisInfo }
      if !d.hasAxisInfo then (false, s4)
      else
        match d.getAxes with
        | none => (false, s4)
        | some tmp_axes =>
          if tmp_axes ≤ 0 then (false, s4)
          else
            let n := tmp_axes.toNat
            let s5 := { s4 with
              subdevice_joints := n
              times := resizeList 0 s4.times n
              ros_name := resizeList "" s4.ros_name n
              ros_position := resizeList 0 s4.ros_position n
              ros_velocity := resizeList 0 s4.ros_velocity n
              ros_effort := resizeList 0 s4.ros_effort n }
            match updateAxisName d s5 with
            | (false, s6) => (false, s6)
            | (true, s6) => (true, s6)

/-- `ControlBoard_nws_ros2::closeDevice` (lines 228-248).  The second component
records whether the owned device instance was destroyed (`delete`). -/
def closeDevice (s : ControllerState) : ControllerState × Bool :=
  (({ s with
      subdevice_ptr := none
      subdevice_owned := false
      subdevice_joints := 0
      subdevice_ready := false
      times := []
      iPositionControl := false
      iEncodersTimed := false
      iTorqueControl := false
      iAxisInfo := false } : ControllerState),
   s.subdevice_owned)

/-- `ControlBoard_nws_ros2::close` (lines 65-76): stop the thread if running,
close the device, close the ports (unimplemented no-op), return true.  The
last component records whether a device instance was destroyed. -/
def close (s : ControllerState) : Bool × ControllerState × Bool :=
  let s1 := if s.running then { s with running := false } else s
  let (s2, destroyed) := closeDevice s1
  (true, s2, destroyed)

/-- `ControlBoard_nws_ros2::attach` (lines 250-268): rejected only when a
subdevice was instantiated by `open` (`subdevice_ready`); otherwise bind the
externally supplied device and start the thread. -/
def attach (d : Device) (s : ControllerState) : Bool × ControllerState :=
  if s.subdevice_ready then (false, s)
  else
    match setDevice d false s with
    | (false, s1) => (false, s1)
    | (true, s1) => (true, { s1 with running := true })

/-- `ControlBoard_nws_ros2::detach` (lines 270-285): rejected when the binding
is self-owned; otherwise stop the thread if running and close the device. -/
def detach (s : ControllerState) : Bool × ControllerState :=
  if s.subdevice_owned then (false, s)
  else
    let s1 := if s.running then { s with running := false } else s
    let (s2, _) := closeDevice s1
    (true, s2)

/-- `ControlBoard_nws_ros2::attachAll` (lines 287-309): exactly one device in
the list, which must be valid, then `attach`. -/
def attachAll (devs : List Device) (s : ControllerState) : Bool × ControllerState :=
  match devs with
  | [] => (false, s)
  | [d] => if !d.valid then (false, s) else attach d s
  | _ => (false, s)

/-- `ControlBoard_nws_ros2::detachAll` (lines 311-314). -/
def detachAll (s : ControllerState) : Bool × ControllerState :=
  detach s

/-- `ControlBoard_nws_ros2::openAndAttachSubDevice` (lines 148-169): the
external driver factory instantiates the named subdevice; an invalid driver
fails, otherwise `setDevice` with ownership. -/
def openAndAttachSubDevice (factory : String → Device) (subdevName : String)
    (s : ControllerState) : Bool × ControllerState :=
  let d := factory subdevName
  if !d.valid then (false, s)
  else setDevice d true s

/-- The part of `open` from the `nodeName` check to the publisher creation and
thread start (lines 111-142). -/
def openNames (config : Config) (s1 : ControllerState) : Bool × ControllerState :=
  match Config.find config "nodeName" with
  | none => (false, s1)
  | some nv =>
    let s2 := { s1 with nodeName := nv.asString }
    match Config.find config "topicName" with
    | none => (false, s2)
    | some tv =>
      let s3 := { s2 with topicName := tv.asString, publisherCreated := true }
      if s3.subdevice_ready then (true, { s3 with running := true })
      else (true, s3)

/-- The part of `open` from the subdevice check onwards (lines 100-142), after
the period has been parsed. -/
def openRest (factory : String → Device) (config : Config) (s : ControllerState) :
    Bool × ControllerState :=
  match Config.find config "subdevice" with
  | some v =>
    match openAndAttachSubDevice factory v.asString s with
    | (false, s1) => (false, s1)
    | (true, s1) => openNames config { s1 with subdevice_ready := true }
  | none => openNames config s

/-- `ControlBoard_nws_ros2::open` (lines 79-143): parse the period (reject a
non-Float64 value, store it, then reject a non-positive value), then handle
the subdevice, `nodeName`, `topicName`, the publisher and the thread start. -/
def open' (factory : String → Device) (config : Config) (s : ControllerState) :
    Bool × ControllerState :=
  match Config.find config "period" with
  | some v =>
    if !v.isFloat64 then (false, s)
    else
      let s1 := { s with period := v.asFloat64 }
      if s1.period ≤ 0 then (false, s1)
      else openRest factory config s1
  | none => openRest factory config { s with period := default_period }

/-- `convertDegreesToRadians` (lines 33-36). -/
noncomputable def convertDegreesToRadians (degrees : ℝ) : ℝ :=
  degrees / 180.0 * Real.pi

/-- The conversion loop of `run` (lines 363-370) acting on one buffer: entry
`i` (counting from start index `j`) is converted exactly when the loop reaches
it (`index < n`) and `getJointType` classifies the joint as revolute. -/
noncomputable def convertLoop (d : Device) (n : Nat) : Nat → List ℝ → List ℝ
  | _, [] => []
  | j, x :: rest =>
    (if j < n ∧ d.jointType j = JointTypeEnum.revolute
     then convertDegreesToRadians x else x) :: convertLoop d n (j + 1) rest

/-- `ControlBoard_nws_ros2::run` (lines 342-383): read positions+timestamps,
velocities and (if the interface is present) torques, each failure leaving the
buffer as it was; average the timestamps into the envelope stamp; convert
revolute joints from degrees to radians; assemble the message and publish it.
The message's `header.stamp` is the node clock's current time (`clockNow`),
not the averaged timestamp (line 374, flagged FIXME in the source). -/
noncomputable def run (d : Device) (clockNow : ℚ) (s : ControllerState) :
    ControllerState × JointStateMsg :=
  let s1 :=
    match d.getEncodersTimed with
    | some pt => { s with ros_position := pt.1, times := pt.2 }
    | none => s
  let s2 :=
    match d.getEncoderSpeeds with
    | some v => { s1 with ros_velocity := v }
    | none => s1
  let effort' :=
    if s2.iTorqueControl then
      match d.getTorques with
      | some tq => tq
      | none => s2.ros_effort
    else s2.ros_effort
  let s3 := { s2 with ros_effort := effort' }
  let s4 := { s3 with envelopeTime := s3.times.sum / (s3.subdevice_joints : ℚ) }
  let s5 := { s4 with
    ros_position := convertLoop d s4.subdevice_joints 0 s4.ros_position
    ros_velocity := convertLoop d s4.subdevice_joints 0 s4.ros_velocity }
  let s6 := { s5 with ros_name := s5.jointNames }
  let msg : JointStateMsg :=
    { name := s6.ros_name
      position := s6.ros_position
      velocity := s6.ros_velocity
      effort := s6.ros_effort
      stamp := clockNow }
  ({ s6 with counter := s6.counter + 1 }, msg)

/-- A fully capable, valid 2-joint test device. -/
def devGood : Device where
  hasPositionControl := true
  hasEncodersTimed := true
  hasTorqueControl := true
  hasAxisInfo := true
  valid := true
  getAxes := some 2
  axisName := fun _ => some "a"
  jointType := fun _ => JointTypeEnum.revolute
  getEncodersTimed := some ([0, 0], [0, 0])
  getEncoderSpeeds := some [0, 0]
  getTorques := some [0, 0]

/-- Like `devGood` but reporting 3 joints. -/
def devGood3 : Device :=
  { devGood with getAxes := some 3 }

/-- Like `devGood` but without the timed-encoder capability. -/
def devNoEnc : Device :=
  { devGood with hasEncodersTimed := false }

/-- Like `devGood` but without the (optional) torque capability. -/
def devNoTorque : Device :=
  { devGood with hasTorqueControl := false }

/-- Like `devGood` but reporting zero joints. -/
def devZeroJoints : Device :=
  { devGood with getAxes := some 0 }

/-- Like `devGood` but whose name query fails from index 1 on. -/
def devBadName : Device :=
  { devGood with axisName := fun i => if i == 0 then some "j0" else none }

/-- The factory used in concrete tests: every subdevice name yields `devGood`. -/
def facGood : String → Device := fun _ => devGood

/-- The controller state after a successful external `attach` of `devGood` to
a fresh controller. -/
def attachedExternal : ControllerState :=
  (attach devGood initialState).2

/-- A 3-joint device with non-revolute joints whose timed encoder read yields
timestamps [1, 2, 3]. -/
def devC1 : Device :=
  { devGood with
    getAxes := some 3
    jointType := fun _ => JointTypeEnum.fixed
    getEncodersTimed := some ([10, 20, 30], [1, 2, 3])
    getEncoderSpeeds := some [0, 0, 0]
    getTorques := some [0, 0, 0] }

/-- The controller state after externally attaching `devC1`. -/
def sC1 : ControllerState := (attach devC1 initialState).2

/-- A 3-joint device with joint types [revolute, fixed, revolute] and raw
position reading [180, 90, 90] degrees. -/
def devC2 : Device :=
  { devGood with
    getAxes := some 3
    jointType := fun i => if i = 1 then JointTypeEnum.fixed else JointTypeEnum.revolute
    getEncodersTimed := some ([180, 90, 90], [0, 0, 0])
    getEncoderSpeeds := some [0, 0, 0]
    getTorques := some [0, 0, 0] }

/-- The controller state after externally attaching `devC2`. -/
def sC2 : ControllerState := (attach devC2 initialState).2

/-- A device on which every sampling-cycle read fails. -/
def devFail : Device :=
  { devGood with
    getEncodersTimed := none
    getEncoderSpeeds := none
    getTorques := none }

/-- A state bound to `devFail` whose buffers hold previous-cycle contents. -/
def sPrev : ControllerState :=
  { (attach devFail initialState).2 with
    ros_position := [3, 4]
    ros_velocity := [5, 6]
    ros_effort := [7, 8]
    times := [9, 10] }

/-- C9: `close` always returns success; closing the already-closed result is a
no-op success that destroys no device again, and the closed state has the
binding released, ownership cleared, joint count zero and capability
references cleared. -/
theorem close_idempotent (s : ControllerState) :
    (close s).1 = true ∧
    close (close s).2.1 = (true, (close s).2.1, false) ∧
    (close s).2.1.subdevice_ptr = none ∧
    (close s).2.1.subdevice_owned = false ∧
    (close s).2.1.subdevice_joints = 0 ∧
    (close s).2.1.iPositionControl = false ∧
    (close s).2.1.iEncodersTimed = false ∧
    (close s).2.1.iTorqueControl = false ∧
    (close s).2.1.iAxisInfo = false := by
  obtain ⟨p, nn, tn, sp, so, sj, sr, t, jn, rn, rp, rv, re, c1, c2, c3, c4, et, pc, rng, cnt⟩ := s
  cases rng <;> simp [close, closeDevice]

/-- C8: `detach` fails and changes nothing on a self-owned binding; on an
externally attached binding it succeeds, stops the thread, releases the
binding and clears the capability references. -/
theorem detach_spec (s : ControllerState) :
    (s.subdevice_owned = true → detach s = (false, s)) ∧
    (∀ d : Device, s.subdevice_owned = false → s.subdevice_ptr = some d →
      (detach s).1 = true ∧
      (detach s).2.running = false ∧
      (detach s).2.subdevice_ptr = none ∧
      (detach s).2.subdevice_owned = false ∧
      (detach s).2.subdevice_joints = 0 ∧
      (detach s).2.iPositionControl = false ∧
      (detach s).2.iEncodersTimed = false ∧
      (detach s).2.iTorqueControl = false ∧
      (detach s).2.iAxisInfo = false) := by
  constructor
  · intro h; simp [detach, h]
  · intro d h hp
    cases hr : s.running <;> simp [detach, h, hr, closeDevice]

/-- Witness for C8: a concrete self-owned binding is not detachable, while the
concrete externally attached state detaches to an unbound, stopped state. -/
theorem detach_spec_witness :
    detach { attachedExternal with subdevice_owned := true } =
      (false, { attachedExternal with subdevice_owned := true }) ∧
    (detach attachedExternal).1 = true ∧
    (detach attachedExternal).2.running = false ∧
    (detach attachedExternal).2.subdevice_ptr = none := by
  refine ⟨(detach_spec _).1 rfl, ?_, ?_, ?_⟩
  · exact ((detach_spec attachedExternal).2 devGood rfl rfl).1
  · exact ((detach_spec attachedExternal).2 devGood rfl rfl).2.1
  · exact ((detach_spec attachedExternal).2 devGood rfl rfl).2.2.1

/-- C10: a positive integer-typed `period` value is rejected by `open` even
though it is numeric and positive: only Float64 period values pass the
`isFloat64` check. -/
theorem open_rejects_integer_period (factory : String → Device) (config : Config)
    (s : ControllerState) (k : Int)
    (h : Config.find config "period" = some (Value.vInt32 k)) (_hk : 0 < k) :
    open' factory config s = (false, s) := by
  simp [open', h, Value.isFloat64]

/-- Witness for C10: the configuration `period = (int) 5` makes `open` fail
and leave the fresh state untouched. -/
theorem open_rejects_integer_period_witness :
    open' (fun _ => devGood) [("period", Value.vInt32 5)] initialState =
      (false, initialState) ∧ (0 : Int) < 5 :=
  ⟨open_rejects_integer_period _ _ _ 5 rfl (by norm_num), by norm_num⟩

/-- C4 (amended): `attach` is rejected, with the state unchanged, when a
subdevice was self-created at `open` (`subdevice_ready`). -/
theorem attach_rejected_when_subdevice_ready (d : Device) (s : ControllerState)
    (h : s.subdevice_ready = true) : attach d s = (false, s) := by
  simp [attach, h]

/-- Witness for C4's amended claim: with a self-created subdevice bound, a
further `attach` is rejected. -/
theorem attach_rejected_when_subdevice_ready_witness :
    attach devGood3 { attachedExternal with subdevice_ready := true } =
      (false, { attachedExternal with subdevice_ready := true }) :=
  attach_rejected_when_subdevice_ready devGood3 _ rfl

/-- C4 counterexample: after an external attach the controller is already
bound (to a 2-joint device), yet a second `attach` is accepted and overwrites
the binding with the new 3-joint device instead of returning false. -/
theorem attach_second_external_accepted :
    attachedExternal.subdevice_ptr.isSome = true ∧
    attachedExternal.subdevice_joints = 2 ∧
    (attach devGood3 attachedExternal).1 = true ∧
    (attach devGood3 attachedExternal).2.subdevice_joints = 3 :=
  ⟨rfl, rfl, rfl, rfl⟩

/-- Helper: `openNames` fails whenever `nodeName` or `topicName` is absent
from the configuration. -/
theorem openNames_fails_of_missing (config : Config) (s1 : ControllerState)
    (h : Config.find config "nodeName" = none ∨ Config.find config "topicName" = none) :
    (openNames config s1).1 = false := by
  unfold openNames
  rcases h with h | h
  · simp [h]
  · cases hn : Config.find config "nodeName" with
    | none => simp
    | some nv => simp [h]

/-- Helper: `openRest` fails whenever `nodeName` or `topicName` is absent from
the configuration, whatever the subdevice step did. -/
theorem openRest_fails_of_missing (factory : String → Device) (config : Config)
    (s : ControllerState)
    (h : Config.find config "nodeName" = none ∨ Config.find config "topicName" = none) :
    (openRest factory config s).1 = false := by
  unfold openRest
  cases hs : Config.find config "subdevice" with
  | none => exact openNames_fails_of_missing config s h
  | some v =>
    cases hoa : openAndAttachSubDevice factory v.asString s with
    | mk b s1 =>
      cases b
      · simp [hoa]
      · simp only [hoa]
        exact openNames_fails_of_missing config _ h

/-- C3 (amended): `open` returns failure whenever `nodeName` is absent,
`topicName` is absent, or `period` is present but not a Float64 value or not
positive. -/
theorem open_rejects_bad_config (factory : String → Device) (config : Config)
    (s : ControllerState)
    (h : Config.find config "nodeName" = none ∨
         Config.find config "topicName" = none ∨
         (∃ v, Config.find config "period" = some v ∧
           (v.isFloat64 = false ∨ v.asFloat64 ≤ 0))) :
    (open' factory config s).1 = false := by
  unfold open'
  rcases h with h | h | ⟨v, hv, hbad⟩
  · cases hp : Config.find config "period" with
    | none => exact openRest_fails_of_missing _ _ _ (Or.inl h)
    | some v =>
      cases hb : v.isFloat64
      · simp [hb]
      · by_cases hle : v.asFloat64 ≤ 0
        · simp [hb, hle]
        · simp only [hb, Bool.not_true, Bool.false_eq_true, if_false, if_neg hle]
          exact openRest_fails_of_missing _ _ _ (Or.inl h)
  · cases hp : Config.find config "period" with
    | none => exact openRest_fails_of_missing _ _ _ (Or.inr h)
    | some v =>
      cases hb : v.isFloat64
      · simp [hb]
      · by_cases hle : v.asFloat64 ≤ 0
        · simp [hb, hle]
        · simp only [hb, Bool.not_true, Bool.false_eq_true, if_false, if_neg hle]
          exact openRest_fails_of_missing _ _ _ (Or.inr h)
  · rw [hv]
    rcases hbad with hb | hb
    · simp [hb]
    · cases hf : v.isFloat64 <;> simp [hf, hb]

/-- Witness for C3's amended claim: a configuration without `nodeName` makes
`open` fail. -/
theorem open_rejects_bad_config_witness :
    (open' facGood [("topicName", Value.vString "t")] initialState).1 = false :=
  open_rejects_bad_config facGood _ initialState (Or.inl rfl)

/-- C3 counterexample: with a subdevice specified and `nodeName` absent,
`open` fails but the self-created subdevice stays bound and owned, with its
buffers allocated — the controller is not back in the Closed state and partial
state from the failed `open` is retained. -/
theorem open_failure_retains_subdevice :
    (open' facGood [("subdevice", Value.vString "fake")] initialState).1 = false ∧
    (open' facGood [("subdevice", Value.vString "fake")] initialState).2.subdevice_ready = true ∧
    (open' facGood [("subdevice", Value.vString "fake")] initialState).2.subdevice_owned = true ∧
    (open' facGood [("subdevice", Value.vString "fake")] initialState).2.subdevice_joints = 2 :=
  ⟨rfl, rfl, rfl, rfl⟩

/-- C5: binding fails when the position-read, timed-encoder-read or
axis-info-read capability is missing, leaving the Sample Buffer untouched; it
fails on a non-positive reported joint count; and absence of only the torque
capability does not cause failure. -/
theorem setDevice_capability_checks (d : Device) (owned : Bool) (s : ControllerState) :
    ((d.hasPositionControl = false ∨ d.hasEncodersTimed = false ∨ d.hasAxisInfo = false) →
      (setDevice d owned s).1 = false ∧
      (setDevice d owned s).2.times = s.times ∧
      (setDevice d owned s).2.ros_position = s.ros_position ∧
      (setDevice d owned s).2.ros_velocity = s.ros_velocity ∧
      (setDevice d owned s).2.ros_effort = s.ros_effort ∧
      (setDevice d owned s).2.subdevice_joints = s.subdevice_joints) ∧
    (∀ a : Int, d.getAxes = some a → a ≤ 0 → (setDevice d owned s).1 = false) ∧
    (∀ (a : Int) (names : List String),
      d.hasPositionControl = true → d.hasEncodersTimed = true → d.hasAxisInfo = true →
      d.hasTorqueControl = false →
      d.getAxes = some a → 0 < a →
      getNames d (List.range a.toNat) = some names →
      (setDevice d owned s).1 = true) := by
  refine ⟨?_, ?_, ?_⟩
  · intro h
    unfold setDevice
    rcases h with h | h | h
    · simp [h]
    · cases hP : d.hasPositionControl <;> simp [hP, h]
    · cases hP : d.hasPositionControl <;> cases hE : d.hasEncodersTimed <;>
        simp [hP, hE, h]
  · intro a ha hle
    unfold setDevice
    cases hP : d.hasPositionControl <;> cases hE : d.hasEncodersTimed <;>
      cases hA : d.hasAxisInfo <;> simp [hP, hE, hA, ha, hle]
  · intro a names hP hE hA hT ha hpos hnames
    unfold setDevice
    simp [hP, hE, hA, ha, not_le.mpr hpos, updateAxisName, hnames]

/-- Witness for C5: a device without timed encoders is rejected with the
buffer untouched; a zero-joint device is rejected; a device missing only the
torque capability binds successfully. -/
theorem setDevice_capability_checks_witness :
    ((setDevice devNoEnc false initialState).1 = false ∧
     (setDevice devNoEnc false initialState).2.times = initialState.times) ∧
    (setDevice devZeroJoints false initialState).1 = false ∧
    (setDevice devNoTorque false initialState).1 = true := by
  refine ⟨⟨?_, ?_⟩, ?_, ?_⟩
  · exact ((setDevice_capability_checks devNoEnc false initialState).1
      (Or.inr (Or.inl rfl))).1
  · exact ((setDevice_capability_checks devNoEnc false initialState).1
      (Or.inr (Or.inl rfl))).2.1
  · exact (setDevice_capability_checks devZeroJoints false initialState).2.1 0 rfl
      (by norm_num)
  · exact (setDevice_capability_checks devNoTorque false initialState).2.2 2 ["a", "a"]
      rfl rfl rfl rfl rfl (by norm_num) rfl

/-- C6 (amended): when a per-joint name query fails, bind returns failure and
the partially populated name table is discarded (`jointNames` keeps its prior
value), but the capability references, joint count and resized Sample Buffer
keep the values set before the failing query — they are not rolled back. -/
theorem setDevice_name_failure_keeps_prior_names (d : Device) (owned : Bool)
    (s : ControllerState) (a : Int)
    (hP : d.hasPositionControl = true) (hE : d.hasEncodersTimed = true)
    (hA : d.hasAxisInfo = true) (ha : d.getAxes = some a) (hpos : 0 < a)
    (hfail : getNames d (List.range a.toNat) = none) :
    (setDevice d owned s).1 = false ∧
    (setDevice d owned s).2.jointNames = s.jointNames ∧
    (setDevice d owned s).2.subdevice_joints = a.toNat ∧
    (setDevice d owned s).2.times = resizeList 0 s.times a.toNat ∧
    (setDevice d owned s).2.iPositionControl = true ∧
    (setDevice d owned s).2.iEncodersTimed = true ∧
    (setDevice d owned s).2.iAxisInfo = true := by
  unfold setDevice
  simp [hP, hE, hA, ha, not_le.mpr hpos, updateAxisName, hfail]

/-- Witness for C6's amended claim at a concrete failing device. -/
theorem setDevice_name_failure_keeps_prior_names_witness :
    (setDevice devBadName true initialState).1 = false ∧
    (setDevice devBadName true initialState).2.jointNames = initialState.jointNames ∧
    (setDevice devBadName true initialState).2.subdevice_joints = 2 := by
  have h := setDevice_name_failure_keeps_prior_names devBadName true initialState 2
    rfl rfl rfl rfl (by norm_num) rfl
  exact ⟨h.1, h.2.1, h.2.2.1⟩

/-- C6 counterexample: the name query fails at index 1 of 2, `setDevice`
returns false and the partial name table is discarded, but the capability
references, joint count and resized Sample Buffer are left behind — the
binding state is not rolled back. -/
theorem setDevice_name_failure_not_rolled_back :
    (setDevice devBadName false initialState).1 = false ∧
    (setDevice devBadName false initialState).2.subdevice_joints = 2 ∧
    (setDevice devBadName false initialState).2.times = [0, 0] ∧
    (setDevice devBadName false initialState).2.iPositionControl = true ∧
    (setDevice devBadName false initialState).2.jointNames = initialState.jointNames :=
  ⟨rfl, rfl, rfl, rfl, rfl⟩

/-- Helper: entry `i` of the conversion loop started at index `j` is the
source entry, converted exactly when `j + i` is within the loop bound and the
joint is classified revolute. -/
theorem convertLoop_getElem? (d : Device) (n : Nat) :
    ∀ (l : List ℝ) (j i : Nat),
      (convertLoop d n j l)[i]? =
        (l[i]?).map (fun x =>
          if j + i < n ∧ d.jointType (j + i) = JointTypeEnum.revolute
          then convertDegreesToRadians x else x)
  | [], j, i => by simp [convertLoop]
  | x :: rest, j, 0 => by simp [convertLoop]
  | x :: rest, j, i + 1 => by
    have harith : j + 1 + i = j + (i + 1) := by omega
    simp [convertLoop, convertLoop_getElem? d n rest (j + 1) i, harith]

/-- C2: in a cycle where the encoder reads succeed, every joint classified
revolute is published with position and velocity converted by
radians = degrees * π / 180, and every non-revolute joint unchanged. -/
theorem run_revolute_conversion (d : Device) (s : ControllerState) (clockNow : ℚ)
    (pos : List ℝ) (ts : List ℚ) (vel : List ℝ) (i : Nat)
    (hp : d.getEncodersTimed = some (pos, ts)) (hv : d.getEncoderSpeeds = some vel)
    (hi : i < s.subdevice_joints) :
    (d.jointType i = JointTypeEnum.revolute →
      ((run d clockNow s).2.position)[i]? = (pos[i]?).map (fun x => x * Real.pi / 180) ∧
      ((run d clockNow s).2.velocity)[i]? = (vel[i]?).map (fun x => x * Real.pi / 180)) ∧
    (d.jointType i ≠ JointTypeEnum.revolute →
      ((run d clockNow s).2.position)[i]? = pos[i]? ∧
      ((run d clockNow s).2.velocity)[i]? = vel[i]?) := by
  unfold run
  simp only [hp, hv]
  constructor
  · intro hrev
    cases hT : s.iTorqueControl <;> cases ht : d.getTorques <;>
      simp [hT, ht, convertLoop_getElem?, hi, hrev, convertDegreesToRadians] <;>
      constructor <;> (cases pos[i]? <;> cases vel[i]? <;> simp <;> norm_num) <;> ring
  · intro hrev
    cases hT : s.iTorqueControl <;> cases ht : d.getTorques <;>
      simp [hT, ht, convertLoop_getElem?, hi, hrev]

/-- Witness for C2: device `devC2` with joint types [revolute, fixed,
revolute] and raw positions [180, 90, 90] degrees publishes positions
[π, 90, π/2]. -/
theorem run_revolute_conversion_witness :
    ((run devC2 0 sC2).2.position)[0]? = some Real.pi ∧
    ((run devC2 0 sC2).2.position)[1]? = some 90 ∧
    ((run devC2 0 sC2).2.position)[2]? = some (Real.pi / 2) := by
  refine ⟨?_, ?_, ?_⟩
  · have h := (run_revolute_conversion devC2 sC2 0 [180, 90, 90] [0, 0, 0] [0, 0, 0] 0
      rfl rfl (by decide)).1 (by decide)
    rw [h.1]
    norm_num
  · have h := (run_revolute_conversion devC2 sC2 0 [180, 90, 90] [0, 0, 0] [0, 0, 0] 1
      rfl rfl (by decide)).2 (by decide)
    rw [h.1]
    norm_num
  · have h := (run_revolute_conversion devC2 sC2 0 [180, 90, 90] [0, 0, 0] [0, 0, 0] 2
      rfl rfl (by decide)).1 (by decide)
    rw [h.1]
    norm_num
    ring

/-- C7: a failed capability read never aborts the cycle: `run` still
assembles and publishes a message (with the captured joint names and the
clock stamp), and the buffer belonging to a failed read keeps its
previous-cycle contents: positions and timestamps for a failed
`getEncodersTimed`, velocities for a failed `getEncoderSpeeds`, efforts for a
failed `getTorques` or an absent torque interface. -/
theorem run_read_failure_publishes (d : Device) (s : ControllerState) (clockNow : ℚ) :
    (run d clockNow s).2.name = s.jointNames ∧
    (run d clockNow s).2.stamp = clockNow ∧
    (d.getEncodersTimed = none →
      (run d clockNow s).2.position = convertLoop d s.subdevice_joints 0 s.ros_position ∧
      (run d clockNow s).1.times = s.times) ∧
    (d.getEncoderSpeeds = none →
      (run d clockNow s).2.velocity = convertLoop d s.subdevice_joints 0 s.ros_velocity) ∧
    (s.iTorqueControl = false ∨ d.getTorques = none →
      (run d clockNow s).2.effort = s.ros_effort) := by
  cases hp : d.getEncodersTimed <;> cases hv : d.getEncoderSpeeds <;>
    cases hT : s.iTorqueControl <;> cases ht : d.getTorques <;>
      simp [run, hp, hv, hT, ht]

/-- Witness for C7: with every read failing on `devFail`, the cycle still
produces a message carrying the stale previous-cycle buffers. -/
theorem run_read_failure_publishes_witness :
    (run devFail 5 sPrev).2.name = sPrev.jointNames ∧
    (run devFail 5 sPrev).2.stamp = 5 ∧
    (run devFail 5 sPrev).2.position =
      convertLoop devFail sPrev.subdevice_joints 0 sPrev.ros_position ∧
    (run devFail 5 sPrev).1.times = sPrev.times ∧
    (run devFail 5 sPrev).2.effort = sPrev.ros_effort := by
  have h := run_read_failure_publishes devFail sPrev 5
  exact ⟨h.1, h.2.1, (h.2.2.1 rfl).1, (h.2.2.1 rfl).2, h.2.2.2.2 (Or.inr rfl)⟩

/-- Helper: whenever the timed encoder read succeeds, the cycle stores the sum
of the read timestamps divided by the joint count in the port envelope stamp,
while the published message is stamped with the node clock's time. -/
theorem run_envelopeTime (d : Device) (s : ControllerState) (clockNow : ℚ)
    (pos : List ℝ) (ts : List ℚ) (hp : d.getEncodersTimed = some (pos, ts)) :
    (run d clockNow s).1.envelopeTime = ts.sum / (s.subdevice_joints : ℚ) ∧
    (run d clockNow s).2.stamp = clockNow := by
  cases hv : d.getEncoderSpeeds <;> cases hT : s.iTorqueControl <;>
    cases ht : d.getTorques <;> simp [run, hp, hv, hT, ht]

/-- C1 (evaluation at the failing input): in a cycle with per-joint timestamps
[1, 2, 3] the loop does compute their arithmetic mean 2 and stores it in the
port envelope stamp, but the published message is stamped with the node
clock's current time 10, not with the mean (line 374, flagged FIXME). -/
theorem run_stamp_is_clock_not_mean :
    (run devC1 10 sC1).1.envelopeTime = 2 ∧
    (run devC1 10 sC1).2.stamp = 10 ∧
    (run devC1 10 sC1).2.stamp ≠ (run devC1 10 sC1).1.envelopeTime := by
  have h := run_envelopeTime devC1 sC1 10 [10, 20, 30] [1, 2, 3] rfl
  have hj : sC1.subdevice_joints = 3 := rfl
  have he : (run devC1 10 sC1).1.envelopeTime = 2 := by
    rw [h.1, hj]; norm_num
  refine ⟨he, h.2, ?_⟩
  rw [he, h.2]
  norm_num
